import Mathlib

/-!
Shallow embedding of the Adaptive Network Optimization & Transfer Tuning
subsystem of the TiktokAutoUploader repository
(`tiktok_uploader/network_utils.py`, `tiktok_uploader/system_tuner.py`,
and the tune-action fragment of `cli.py`), together with proofs of the
specification claims about it.

Python floats are modelled as rationals (ℚ), with `Option ℚ` standing for
a float that may be `inf` (`none` = +∞).  Python exceptions are modelled
with `Except`.  Side-effecting operations are modelled by returning an
explicit trace of the effects they perform.
-/

namespace TikTok

/-! ## TransferProfiler: `NetworkOptimizer.get_retry_config` -/

/-- The dictionary returned by `get_retry_config`
(`network_utils.py` lines 186-214). -/
structure RetryConfig where
  max_retries : Nat
  backoff_factor : ℚ
  timeout : Nat
  chunk_size : Nat
deriving DecidableEq, Repr

/-- `NetworkOptimizer.get_retry_config` (`network_utils.py` 186-214):
three bandwidth tiers with boundaries at 5 and 25 Mbps. -/
def get_retry_config (bandwidth_mbps : ℚ) : RetryConfig :=
  if bandwidth_mbps < 5 then
    { max_retries := 5, backoff_factor := 2, timeout := 30,
      chunk_size := 1024 * 512 }
  else if bandwidth_mbps < 25 then
    { max_retries := 3, backoff_factor := 3/2, timeout := 20,
      chunk_size := 1024 * 1024 * 2 }
  else
    { max_retries := 2, backoff_factor := 1, timeout := 15,
      chunk_size := 1024 * 1024 * 5 }

/-! ## TransferProfiler: `NetworkOptimizer.get_optimal_concurrent_connections` -/

/-- Python `int(·)` on a float: truncation toward zero. -/
def pyInt (q : ℚ) : Int :=
  if 0 ≤ q then ⌊q⌋ else ⌈q⌉

/-- `NetworkOptimizer.get_optimal_concurrent_connections`
(`network_utils.py` 157-165), with the bandwidth supplied by the caller:
`max(2, min(16, int(bandwidth_mbps / 10) + 2))`. -/
def get_optimal_concurrent_connections (bandwidth_mbps : ℚ) : Int :=
  max 2 (min 16 (pyInt (bandwidth_mbps / 10) + 2))

/-- Modelled from the spec: `clamp(x, lo, hi)` as used in the sentence
`deriveConcurrency(b) = clamp(floor(b/10)+2, 2, 16)`. -/
def clampSpec (x lo hi : Int) : Int :=
  max lo (min hi x)

/-! ## NetworkProbe: `NetworkOptimizer.benchmark_dns_servers`

A measured latency is a float that may be `inf`: `none` stands for +∞. -/

/-- A latency or score: `some q` is a finite value, `none` is `float('inf')`. -/
abbrev Score := Option ℚ

/-- Ordering of float scores: +∞ compares greater-or-equal to everything. -/
def Score.le : Score → Score → Bool
  | _, none => true
  | none, some _ => false
  | some a, some b => a ≤ b

/-- Float addition on scores: anything plus +∞ is +∞. -/
def Score.add : Score → Score → Score
  | some a, some b => some (a + b)
  | _, _ => none

/-- One entry of `NetworkOptimizer.DNS_SERVERS`: a provider name and its
address list. -/
structure DnsCandidate where
  name : String
  servers : List String
deriving DecidableEq, Repr

/-- The raw sub-measurements gathered for one candidate inside the
`benchmark_dns_servers` loop: the ping round-trip and one lookup latency
per test domain (each may be +∞). -/
structure DnsMeasurement where
  ping_time : Score
  lookup_times : List Score
deriving DecidableEq, Repr

/-- `avg_lookup` (`network_utils.py` 90-96): keep the finite lookup times,
average them, +∞ when none succeeded. -/
def avg_lookup (ts : List Score) : Score :=
  let finite := ts.filterMap id
  if finite.isEmpty then none else some (finite.sum / finite.length)

/-- The `results` dictionary built by `benchmark_dns_servers`
(`network_utils.py` 81-103), with `total_score = ping_time + avg_lookup`. -/
def dns_results (data : List (DnsCandidate × DnsMeasurement)) :
    List (DnsCandidate × Score) :=
  data.map fun p => (p.1, Score.add p.2.ping_time (avg_lookup p.2.lookup_times))

/-- Python `min(results.items(), key=total_score)`: scan left to right,
replace the current best only on a strictly smaller score (ties keep the
earlier entry). -/
def minByScore : List (DnsCandidate × Score) → Option (DnsCandidate × Score)
  | [] => none
  | x :: xs =>
    some (xs.foldl (fun acc y => if Score.le acc.2 y.2 then acc else y) x)

/-- `NetworkOptimizer.benchmark_dns_servers` (`network_utils.py` 75-116)
given the per-candidate raw measurements: pick the entry of minimal
`total_score`; return its `(name, servers)` when that score is finite,
`(None, None)` (modelled `none`) otherwise. -/
def benchmark_dns_servers (data : List (DnsCandidate × DnsMeasurement)) :
    Option (String × List String) :=
  match minByScore (dns_results data) with
  | none => none
  | some best =>
    if best.2 ≠ none then some (best.1.name, best.1.servers) else none

/-- Concrete benchmark input used by the C3 witness: one reachable and
one unreachable candidate. -/
def dns_witness_data : List (DnsCandidate × DnsMeasurement) :=
  [(⟨"cloudflare", ["1.1.1.1", "1.0.0.1"]⟩,
      ⟨some 12, [some 20, none, some 30]⟩),
   (⟨"google", ["8.8.8.8", "8.8.4.4"]⟩,
      ⟨none, [none, none, none]⟩)]

/-! ## RetryExecutor: `NetworkOptimizer.smart_retry`

The retried operation is modelled as a function from the zero-based
attempt index to the outcome of that invocation (`Except.ok` a return
value, `Except.error` a raised exception). -/

/-- How a `smart_retry` call ends: a successful `return func(...)`, a
`raise e`, or falling out of the loop and returning `None`. -/
inductive RetryOutcome (E A : Type) where
  | success : A → RetryOutcome E A
  | raised : E → RetryOutcome E A
  | returnedNone : RetryOutcome E A
deriving DecidableEq, Repr

/-- Observable behaviour of one `smart_retry` call: how many times the
operation was invoked, the successive `time.sleep` durations, and the
final outcome. -/
structure RetryTrace (E A : Type) where
  calls : Nat
  waits : List ℚ
  outcome : RetryOutcome E A
deriving DecidableEq, Repr

/-- The `for attempt in range(max_retries)` loop of
`NetworkOptimizer.smart_retry` (`network_utils.py` 216-231), starting at
the given attempt index with the given number of iterations left.  On
success the value is returned; on failure at the last index
(`attempt == max_retries - 1`) the exception is re-raised; otherwise the
loop sleeps `backoff_factor ** attempt` seconds and continues. -/
def smart_retry_go (op : Nat → Except E A) (backoff_factor : ℚ)
    (max_retries : Nat) : Nat → Nat → RetryTrace E A
  | _, 0 => ⟨0, [], .returnedNone⟩
  | attempt, fuel + 1 =>
    match op attempt with
    | .ok a => ⟨1, [], .success a⟩
    | .error e =>
      if attempt = max_retries - 1 then ⟨1, [], .raised e⟩
      else
        ⟨(smart_retry_go op backoff_factor max_retries (attempt + 1) fuel).calls + 1,
          backoff_factor ^ attempt ::
            (smart_retry_go op backoff_factor max_retries (attempt + 1) fuel).waits,
          (smart_retry_go op backoff_factor max_retries (attempt + 1) fuel).outcome⟩

/-- `NetworkOptimizer.smart_retry` (`network_utils.py` 216-231) for a
non-negative `max_retries`. -/
def smart_retry (op : Nat → Except E A) (backoff_factor : ℚ)
    (max_retries : Nat) : RetryTrace E A :=
  smart_retry_go op backoff_factor max_retries 0 max_retries

/-- `NetworkOptimizer.smart_retry` with the Python integer argument:
`range(max_retries)` is empty for every non-positive `max_retries`. -/
def smart_retry_py (op : Nat → Except E A) (backoff_factor : ℚ)
    (max_retries : Int) : RetryTrace E A :=
  smart_retry op backoff_factor max_retries.toNat

/-- Operation used by the C4 witness: fails on attempts 0 and 1
(raising the attempt index), succeeds with 99 from attempt 2 on. -/
def retry_witness_op : Nat → Except Nat Nat :=
  fun i => if i < 2 then .error i else .ok 99

/-! ## NetworkProbe: `NetworkOptimizer.detect_bandwidth` -/

/-- What the streaming download measured when it completed: accumulated
bytes and elapsed seconds. -/
structure BandwidthSample where
  data_downloaded : ℚ
  elapsed : ℚ
deriving DecidableEq, Repr

/-- `NetworkOptimizer.detect_bandwidth` (`network_utils.py` 130-155) as a
function of the underlying HTTP measurement: any raised failure is caught
and the fixed fallback 10.0 Mbps is returned. -/
def detect_bandwidth (E : Type) (probe : Except E BandwidthSample) : ℚ :=
  match probe with
  | .ok m => m.data_downloaded / m.elapsed * 8 / (1024 * 1024)
  | .error _ => 10

/-! ## NetworkProbe: `NetworkOptimizer.dns_lookup_test` and the
process-wide default socket timeout -/

/-- `NetworkOptimizer.dns_lookup_test` (`network_utils.py` 54-73),
projected onto its `socket.setdefaulttimeout` calls: given the current
process-wide default timeout `st0` (None = no timeout), the per-call
override, and the outcome of `socket.gethostbyname` (elapsed ms or a
raised failure), return the ordered list of arguments passed to
`socket.setdefaulttimeout` and the value returned (+∞ on failure). -/
def dns_lookup_test (E : Type) (st0 : Option ℚ) (timeout : ℚ)
    (lookup : Except E ℚ) : List (Option ℚ) × Score :=
  match lookup with
  | .ok t => ([some timeout, st0], some t)
  | .error _ => ([some timeout, st0], none)

/-- The process-wide default socket timeout after a sequence of
`socket.setdefaulttimeout` calls, starting from `st0`. -/
def run_set_timeouts (st0 : Option ℚ) (ops : List (Option ℚ)) : Option ℚ :=
  ops.foldl (fun _ v => v) st0

/-! ## SystemTuner: `SystemNetworkTuner` (`system_tuner.py`) and the
CLI tune action (`cli.py` 80-86)

The ambient system is a `TunerEnv`; what a run does to it is recorded as
an ordered list of `TunerEffect`s. -/

/-- One observable interaction of the tuner with the system: a privilege
check, executing a tuning command, printing a command in a dry-run
listing, or attempting to write the persistent config file. -/
inductive TunerEffect where
  | priv_check : TunerEffect
  | exec_cmd : String → TunerEffect
  | list_cmd : String → TunerEffect
  | write_config : String → TunerEffect
deriving DecidableEq, Repr

/-- The system state the tuner runs against: OS family, whether BBR is
available, whether the caller is root/admin, whether each executed
command exits with status 0, and whether the persistent config file can
be written. -/
structure TunerEnv where
  os_type : String
  bbr_available : Bool
  is_root : Bool
  exec_ok : String → Bool
  write_ok : Bool

/-- The fixed Linux command catalogue of
`SystemNetworkTuner.get_network_optimization_commands`
(`system_tuner.py` 62-85). -/
def linux_base_commands : List String :=
  ["sysctl -w net.core.rmem_max=134217728",
   "sysctl -w net.core.wmem_max=134217728",
   "sysctl -w net.ipv4.tcp_rmem=\"4096 87380 134217728\"",
   "sysctl -w net.ipv4.tcp_wmem=\"4096 65536 134217728\"",
   "sysctl -w net.core.netdev_max_backlog=5000",
   "sysctl -w net.core.somaxconn=1024",
   "sysctl -w net.ipv4.tcp_window_scaling=1",
   "sysctl -w net.ipv4.tcp_timestamps=1",
   "sysctl -w net.ipv4.tcp_sack=1",
   "sysctl -w net.ipv4.tcp_no_metrics_save=1",
   "sysctl -w net.ipv4.tcp_syn_retries=3",
   "sysctl -w net.ipv4.tcp_synack_retries=3",
   "sysctl -w net.ipv4.tcp_retries2=8"]

/-- `SystemNetworkTuner.get_network_optimization_commands`
(`system_tuner.py` 58-114): the OS-keyed command catalogue, with the two
BBR commands appended on Linux when BBR is available. -/
def get_network_optimization_commands (env : TunerEnv) : List String :=
  if env.os_type = "linux" then
    linux_base_commands ++
      (if env.bbr_available then
        ["sysctl -w net.ipv4.tcp_congestion_control=bbr",
         "sysctl -w net.core.default_qdisc=fq"]
       else [])
  else if env.os_type = "darwin" then
    ["sysctl -w kern.ipc.maxsockbuf=16777216",
     "sysctl -w net.inet.tcp.sendspace=1048576",
     "sysctl -w net.inet.tcp.recvspace=1048576"]
  else if env.os_type = "windows" then
    ["netsh int tcp set global autotuninglevel=normal",
     "netsh int tcp set global chimney=enabled",
     "netsh int tcp set global rss=enabled",
     "netsh int tcp set global netdma=enabled",
     "netsh int tcp set global initialrto=1000",
     "netsh int tcp set global maxsynretransmissions=4"]
  else []

/-- `SystemNetworkTuner.apply_optimizations` (`system_tuner.py` 116-153):
`if not dry_run and not check_root(): return False` (the privilege check
is short-circuited away when `dry_run` is true); a dry run lists every
command and returns True; otherwise every command is executed and the
result is whether at least one succeeded. -/
def apply_optimizations (env : TunerEnv) (dry_run : Bool) :
    Bool × List TunerEffect :=
  if !dry_run && !env.is_root then
    (false, [.priv_check])
  else if dry_run then
    (true, (get_network_optimization_commands env).map .list_cmd)
  else
    (decide (0 < ((get_network_optimization_commands env).filter env.exec_ok).length),
      .priv_check :: (get_network_optimization_commands env).map .exec_cmd)

/-- The Linux path of the persistent configuration file
(`system_tuner.py` 158). -/
def sysctl_config_path : String := "/etc/sysctl.d/99-network-optimization.conf"

/-- `SystemNetworkTuner.create_persistent_config` (`system_tuner.py`
155-200): on Linux it attempts to write the config file (returning
whether the write succeeded); on any other OS it does nothing and
returns False. -/
def create_persistent_config (env : TunerEnv) : Bool × List TunerEffect :=
  if env.os_type = "linux" then
    (env.write_ok, [.write_config sysctl_config_path])
  else
    (false, [])

/-- The result of the CLI tune action: the `sys.exit` code, the (ignored)
return value of `apply_optimizations`, and the combined effect trace. -/
structure TuneResult where
  exit_code : Nat
  apply_result : Bool
  effects : List TunerEffect

/-- The tune-action fragment of `cli.py` (lines 80-86): run
`apply_optimizations(dry_run)`; when not a dry run, additionally run
`create_persistent_config()`; then `sys.exit(0)` unconditionally. -/
def cli_tune (env : TunerEnv) (dry_run : Bool) : TuneResult :=
  if dry_run then
    ⟨0, (apply_optimizations env true).1, (apply_optimizations env true).2⟩
  else
    ⟨0, (apply_optimizations env false).1,
      (apply_optimizations env false).2 ++ (create_persistent_config env).2⟩

/-- Concrete system state for the C9 counterexample and witness: Linux,
no root privilege. -/
def tune_noroot_env : TunerEnv :=
  { os_type := "linux", bbr_available := false, is_root := false,
    exec_ok := fun _ => false, write_ok := false }

/-- Concrete system state for the C6 witness: Windows, not an admin. -/
def priv_witness_env : TunerEnv :=
  { os_type := "windows", bbr_available := false, is_root := false,
    exec_ok := fun _ => true, write_ok := false }

end TikTok

/-! ## Claim theorems -/

open TikTok

namespace TikTok

theorem Score.le_refl (a : Score) : Score.le a a := by
  cases a <;> simp [Score.le]

theorem Score.le_total (a b : Score) : Score.le a b ∨ Score.le b a := by
  cases a <;> cases b <;> simp [Score.le] <;> exact LinearOrder.le_total _ _

theorem Score.le_trans {a b c : Score} (hab : Score.le a b)
    (hbc : Score.le b c) : Score.le a c := by
  cases a <;> cases b <;> cases c <;> simp_all [Score.le]
  exact hab.trans hbc

/-- The left-to-right minimum scan lands on an element of the list. -/
theorem foldl_minBy_mem (x : DnsCandidate × Score)
    (xs : List (DnsCandidate × Score)) :
    xs.foldl (fun acc y => if Score.le acc.2 y.2 then acc else y) x ∈ x :: xs := by
  induction xs generalizing x with
  | nil => simp
  | cons y ys ih =>
    rw [List.foldl_cons]
    by_cases hle : Score.le x.2 y.2
    · rw [if_pos hle]
      rcases List.mem_cons.mp (ih x) with h | h
      · simp [h]
      · simp [List.mem_cons, h]
    · rw [if_neg hle]
      rcases List.mem_cons.mp (ih y) with h | h
      · simp [h]
      · simp [List.mem_cons, h]

/-- The left-to-right minimum scan yields a score less-or-equal to every
element it scanned (the seed included). -/
theorem foldl_minBy_le (x : DnsCandidate × Score)
    (xs : List (DnsCandidate × Score)) :
    ∀ y ∈ x :: xs,
      Score.le (xs.foldl (fun acc y => if Score.le acc.2 y.2 then acc else y) x).2 y.2 := by
  induction xs generalizing x with
  | nil => simpa using Score.le_refl x.2
  | cons y ys ih =>
    intro z hz
    rw [List.foldl_cons]
    have hstep : Score.le (if Score.le x.2 y.2 then x else y).2 x.2 ∧
        Score.le (if Score.le x.2 y.2 then x else y).2 y.2 := by
      by_cases hle : Score.le x.2 y.2
      · exact ⟨by simp [hle, Score.le_refl], by simp [hle]⟩
      · rcases Score.le_total x.2 y.2 with h | h
        · exact absurd h hle
        · exact ⟨by simp [hle, h], by simp [hle, Score.le_refl]⟩
    have hacc := ih (if Score.le x.2 y.2 then x else y)
    rcases List.mem_cons.mp hz with rfl | hz'
    · exact Score.le_trans (hacc _ (List.mem_cons_self _ _)) hstep.1
    rcases List.mem_cons.mp hz' with rfl | hz''
    · exact Score.le_trans (hacc _ (List.mem_cons_self _ _)) hstep.2
    · exact hacc _ (List.mem_cons_of_mem _ hz'')

/-- On a nonempty list, `minByScore` returns an element that is minimal. -/
theorem minByScore_spec (rs : List (DnsCandidate × Score)) (h : rs ≠ []) :
    ∃ best, minByScore rs = some best ∧ best ∈ rs ∧
      ∀ y ∈ rs, Score.le best.2 y.2 := by
  cases rs with
  | nil => exact absurd rfl h
  | cons x xs =>
    exact ⟨_, rfl, foldl_minBy_mem x xs, foldl_minBy_le x xs⟩

/-- Peeling the first backoff duration off a list of consecutive powers. -/
theorem range_pow_cons (b : ℚ) (attempt i : Nat) :
    (List.range (i + 1)).map (fun t => b ^ (attempt + t)) =
      b ^ attempt :: (List.range i).map (fun t => b ^ (attempt + 1 + t)) := by
  rw [List.range_succ_eq_map, List.map_cons, List.map_map]
  refine congrArg₂ List.cons ?_ ?_
  · show b ^ (attempt + 0) = b ^ attempt
    rw [Nat.add_zero]
  · refine congrArg (fun f => List.map f (List.range i)) ?_
    funext t
    show b ^ (attempt + (t + 1)) = b ^ (attempt + 1 + t)
    exact congrArg (b ^ ·) (by omega)

/-- One unfolding of the loop with at least one iteration left. -/
theorem smart_retry_go_succ_fuel (op : Nat → Except E A) (b : ℚ)
    (n attempt fuel : Nat) :
    smart_retry_go op b n attempt (fuel + 1) =
      match op attempt with
      | .ok a => ⟨1, [], .success a⟩
      | .error e =>
        if attempt = n - 1 then ⟨1, [], .raised e⟩
        else
          ⟨(smart_retry_go op b n (attempt + 1) fuel).calls + 1,
            b ^ attempt :: (smart_retry_go op b n (attempt + 1) fuel).waits,
            (smart_retry_go op b n (attempt + 1) fuel).outcome⟩ := rfl

/-- A successful invocation ends the loop at once. -/
theorem smart_retry_go_ok (op : Nat → Except E A) (b : ℚ)
    (n attempt fuel : Nat) (a : A) (hok : op attempt = .ok a) :
    smart_retry_go op b n attempt (fuel + 1) = ⟨1, [], .success a⟩ := by
  rw [smart_retry_go_succ_fuel, hok]

/-- A failure on the final attempt index re-raises. -/
theorem smart_retry_go_err_last (op : Nat → Except E A) (b : ℚ)
    (n attempt fuel : Nat) (e : E) (he : op attempt = .error e)
    (hl : attempt = n - 1) :
    smart_retry_go op b n attempt (fuel + 1) = ⟨1, [], .raised e⟩ := by
  rw [smart_retry_go_succ_fuel, he]
  exact if_pos hl

/-- A failure on a non-final attempt sleeps and continues. -/
theorem smart_retry_go_err_step (op : Nat → Except E A) (b : ℚ)
    (n attempt fuel : Nat) (e : E) (he : op attempt = .error e)
    (hl : ¬attempt = n - 1) :
    smart_retry_go op b n attempt (fuel + 1) =
      ⟨(smart_retry_go op b n (attempt + 1) fuel).calls + 1,
        b ^ attempt :: (smart_retry_go op b n (attempt + 1) fuel).waits,
        (smart_retry_go op b n (attempt + 1) fuel).outcome⟩ := by
  rw [smart_retry_go_succ_fuel, he]
  exact if_neg hl

/-- The loop body runs at most `fuel` times. -/
theorem smart_retry_go_calls_le (op : Nat → Except E A) (b : ℚ) (n : Nat) :
    ∀ fuel attempt, (smart_retry_go op b n attempt fuel).calls ≤ fuel := by
  intro fuel
  induction fuel with
  | zero => intro attempt; exact Nat.le_refl 0
  | succ f ih =>
    intro attempt
    cases hop : op attempt with
    | ok a => rw [smart_retry_go_ok op b n attempt f a hop]; exact Nat.le_add_left 1 f
    | error e =>
      by_cases hlast : attempt = n - 1
      · rw [smart_retry_go_err_last op b n attempt f e hop hlast]
        exact Nat.le_add_left 1 f
      · rw [smart_retry_go_err_step op b n attempt f e hop hlast]
        exact Nat.succ_le_succ (ih (attempt + 1))

/-- If the first `i` attempts starting at `attempt` fail and attempt
`attempt + i` succeeds (still inside the loop), the loop returns that
success after `i + 1` invocations, having slept once per failure. -/
theorem smart_retry_go_success (op : Nat → Except E A) (b : ℚ) (n : Nat) :
    ∀ (i attempt fuel : Nat) (a : A), fuel + attempt = n → attempt + i < n →
    (∀ j, attempt ≤ j → j < attempt + i → ∃ e, op j = .error e) →
    op (attempt + i) = .ok a →
    smart_retry_go op b n attempt fuel =
      ⟨i + 1, (List.range i).map (fun t => b ^ (attempt + t)), .success a⟩ := by
  intro i
  induction i with
  | zero =>
    intro attempt fuel a hfuel hlt _ hok
    cases fuel with
    | zero => exact absurd hlt (by omega)
    | succ f =>
      rw [Nat.add_zero] at hok
      rw [smart_retry_go_ok op b n attempt f a hok]
      rfl
  | succ i ih =>
    intro attempt fuel a hfuel hlt hfail hok
    cases fuel with
    | zero => exact absurd hlt (by omega)
    | succ f =>
      obtain ⟨e, he⟩ := hfail attempt (Nat.le_refl _) (by omega)
      have hrest := ih (attempt + 1) f a (by omega) (by omega)
        (fun j hj hj' => hfail j (by omega) (by omega))
        (by rw [show attempt + 1 + i = attempt + (i + 1) by omega]; exact hok)
      rw [smart_retry_go_err_step op b n attempt f e he (by omega), hrest,
        range_pow_cons]

/-- If every attempt from `attempt` to `n - 1` fails, the loop re-raises
the failure of attempt `n - 1` after exhausting its `fuel` iterations,
having slept after each failure but the last. -/
theorem smart_retry_go_exhaust (op : Nat → Except E A) (b : ℚ) (n : Nat) :
    ∀ (fuel attempt : Nat) (err : Nat → E), fuel + attempt = n → 1 ≤ fuel →
    (∀ j, attempt ≤ j → j < n → op j = .error (err j)) →
    smart_retry_go op b n attempt fuel =
      ⟨fuel, (List.range (fuel - 1)).map (fun t => b ^ (attempt + t)),
        .raised (err (n - 1))⟩ := by
  intro fuel
  induction fuel with
  | zero => intro attempt err hfuel h1 hfail; exact absurd h1 (by omega)
  | succ f ih =>
    intro attempt err hfuel _ hfail
    have he := hfail attempt (Nat.le_refl _) (by omega)
    cases f with
    | zero =>
      have hlast : attempt = n - 1 := by omega
      rw [smart_retry_go_err_last op b n attempt 0 (err attempt) he hlast, hlast]
      rfl
    | succ f' =>
      have hrest := ih (attempt + 1) err (by omega) (by omega)
        (fun j hj hj' => hfail j (by omega) hj')
      rw [smart_retry_go_err_step op b n attempt (f' + 1) (err attempt) he (by omega),
        hrest, show f' + 1 + 1 - 1 = (f' + 1 - 1) + 1 by omega, range_pow_cons]

end TikTok

/-- C1: for every bandwidth `b`, `get_retry_config b` is exactly the tier
table with boundaries at 5 and 25 Mbps, the boundary values falling into
the higher tier. -/
theorem get_retry_config_tiers (b : ℚ) :
    (b < 5 → get_retry_config b =
      { max_retries := 5, backoff_factor := 2, timeout := 30,
        chunk_size := 512 * 1024 }) ∧
    (5 ≤ b → b < 25 → get_retry_config b =
      { max_retries := 3, backoff_factor := 3/2, timeout := 20,
        chunk_size := 2 * 1024 * 1024 }) ∧
    (25 ≤ b → get_retry_config b =
      { max_retries := 2, backoff_factor := 1, timeout := 15,
        chunk_size := 5 * 1024 * 1024 }) := by
  refine ⟨fun h => ?_, fun h5 h25 => ?_, fun h => ?_⟩
  · simp [get_retry_config, h]
  · rw [get_retry_config, if_neg (by linarith), if_pos h25]
  · rw [get_retry_config, if_neg (by linarith), if_neg (by linarith)]

/-- Witness for C1 at the two boundary bandwidths 5 and 25. -/
theorem get_retry_config_tiers_witness :
    (5 : ℚ) ≤ 5 ∧ (5 : ℚ) < 25 ∧ (25 : ℚ) ≤ 25 ∧
    get_retry_config 5 =
      { max_retries := 3, backoff_factor := 3/2, timeout := 20,
        chunk_size := 2 * 1024 * 1024 } ∧
    get_retry_config 25 =
      { max_retries := 2, backoff_factor := 1, timeout := 15,
        chunk_size := 5 * 1024 * 1024 } :=
  ⟨by norm_num, by norm_num, by norm_num,
    (get_retry_config_tiers 5).2.1 (by norm_num) (by norm_num),
    (get_retry_config_tiers 25).2.2 (by norm_num)⟩

/-- C2: for every finite bandwidth `b ≥ 0`,
`get_optimal_concurrent_connections b = clamp(⌊b/10⌋ + 2, 2, 16)` and the
result lies in `[2, 16]`. -/
theorem get_optimal_concurrent_connections_clamp (b : ℚ) (hb : 0 ≤ b) :
    get_optimal_concurrent_connections b = clampSpec (⌊b / 10⌋ + 2) 2 16 ∧
    2 ≤ get_optimal_concurrent_connections b ∧
    get_optimal_concurrent_connections b ≤ 16 := by
  have hdiv : (0 : ℚ) ≤ b / 10 := by positivity
  have hpy : pyInt (b / 10) = ⌊b / 10⌋ := if_pos hdiv
  refine ⟨by rw [get_optimal_concurrent_connections, clampSpec, hpy], ?_, ?_⟩
  · exact le_max_left _ _
  · exact max_le (by norm_num) (min_le_left _ _)

/-- Witness for C2 at bandwidth 52 Mbps (concurrency 7). -/
theorem get_optimal_concurrent_connections_clamp_witness :
    (0 : ℚ) ≤ 52 ∧
    (get_optimal_concurrent_connections 52 = clampSpec (⌊(52 : ℚ) / 10⌋ + 2) 2 16 ∧
      2 ≤ get_optimal_concurrent_connections 52 ∧
      get_optimal_concurrent_connections 52 ≤ 16) :=
  ⟨by norm_num, get_optimal_concurrent_connections_clamp 52 (by norm_num)⟩

/-- C3: on a nonempty candidate list, `benchmark_dns_servers` returns
`(None, None)` iff every candidate's total score is +∞, and whenever it
returns a name and server list these belong to a candidate whose total
score is finite and globally minimal. -/
theorem benchmark_dns_servers_spec (data : List (DnsCandidate × DnsMeasurement))
    (h : data ≠ []) :
    (benchmark_dns_servers data = none ↔
      ∀ r ∈ dns_results data, r.2 = none) ∧
    (∀ n s, benchmark_dns_servers data = some (n, s) →
      ∃ r ∈ dns_results data, r.1.name = n ∧ r.1.servers = s ∧
        r.2 ≠ none ∧ ∀ y ∈ dns_results data, Score.le r.2 y.2) := by
  have hne : dns_results data ≠ [] := by
    simpa [dns_results] using h
  obtain ⟨best, hmin, hmem, hle⟩ := TikTok.minByScore_spec (dns_results data) hne
  constructor
  · constructor
    · intro hnone r hr
      rw [benchmark_dns_servers, hmin] at hnone
      by_cases hb : best.2 = none
      · have := hle r hr
        cases hr2 : r.2 with
        | none => rfl
        | some q => rw [hb, hr2] at this; simp [TikTok.Score.le] at this
      · simp [hb] at hnone
    · intro hall
      rw [benchmark_dns_servers, hmin]
      simp [hall best hmem]
  · intro n s hsome
    rw [benchmark_dns_servers, hmin] at hsome
    by_cases hb : best.2 = none
    · simp [hb] at hsome
    · refine ⟨best, hmem, ?_, ?_, hb, hle⟩ <;>
        · simp [hb] at hsome
          simp [← hsome]

/-- Witness for C3 on `dns_witness_data`. -/
theorem benchmark_dns_servers_spec_witness :
    dns_witness_data ≠ [] ∧
    ((benchmark_dns_servers dns_witness_data = none ↔
      ∀ r ∈ dns_results dns_witness_data, r.2 = none) ∧
    (∀ n s, benchmark_dns_servers dns_witness_data = some (n, s) →
      ∃ r ∈ dns_results dns_witness_data, r.1.name = n ∧ r.1.servers = s ∧
        r.2 ≠ none ∧ ∀ y ∈ dns_results dns_witness_data, Score.le r.2 y.2)) :=
  ⟨by decide, benchmark_dns_servers_spec dns_witness_data (by decide)⟩

/-- C4: for every operation and every `max_retries ≥ 1`, `smart_retry`
invokes the operation at most `max_retries` times, returns the result of
the first successful invocation after exactly that many invocations while
sleeping `backoff_factor ^ attempt` after each preceding (non-final)
failure, and when all `max_retries` invocations fail it re-raises the
failure of the final invocation after exactly `max_retries` invocations. -/
theorem smart_retry_spec (E A : Type) (op : Nat → Except E A) (b : ℚ)
    (n : Nat) (hn : 1 ≤ n) :
    (smart_retry op b n).calls ≤ n ∧
    (∀ i a, i < n → (∀ j, j < i → ∃ e, op j = .error e) → op i = .ok a →
      smart_retry op b n =
        ⟨i + 1, (List.range i).map (fun t => b ^ t), .success a⟩) ∧
    (∀ err : Nat → E, (∀ j, j < n → op j = .error (err j)) →
      smart_retry op b n =
        ⟨n, (List.range (n - 1)).map (fun t => b ^ t), .raised (err (n - 1))⟩) := by
  refine ⟨TikTok.smart_retry_go_calls_le op b n n 0, fun i a hi hfail hok => ?_, fun err hfail => ?_⟩
  · have h := TikTok.smart_retry_go_success op b n i 0 n a (by omega) (by omega)
      (fun j hj hj' => hfail j (by omega)) (by rw [Nat.zero_add]; exact hok)
    rw [smart_retry, h]
    exact congrArg (fun L => RetryTrace.mk (i + 1) L (.success a))
      (List.map_congr_left fun t _ => congrArg (b ^ ·) (Nat.zero_add t))
  · have h := TikTok.smart_retry_go_exhaust op b n n 0 err (by omega) hn
      (fun j hj hj' => hfail j hj')
    rw [smart_retry, h]
    exact congrArg (fun L => RetryTrace.mk n L (.raised (err (n - 1))))
      (List.map_congr_left fun t _ => congrArg (b ^ ·) (Nat.zero_add t))

/-- Witness for C4: an operation failing exactly twice then succeeding,
with `max_retries = 3` and `backoff_factor = 3/2`. -/
theorem smart_retry_spec_witness :
    1 ≤ 3 ∧
    ((smart_retry retry_witness_op (3/2) 3).calls ≤ 3 ∧
    (∀ i a, i < 3 → (∀ j, j < i → ∃ e, retry_witness_op j = .error e) →
      retry_witness_op i = .ok a →
      smart_retry retry_witness_op (3/2) 3 =
        ⟨i + 1, (List.range i).map (fun t => (3/2 : ℚ) ^ t), .success a⟩) ∧
    (∀ err : Nat → Nat, (∀ j, j < 3 → retry_witness_op j = .error (err j)) →
      smart_retry retry_witness_op (3/2) 3 =
        ⟨3, (List.range 2).map (fun t => (3/2 : ℚ) ^ t), .raised (err 2)⟩)) :=
  ⟨by decide, smart_retry_spec Nat Nat retry_witness_op (3/2) 3 (by decide)⟩

/-- C10: for every operation, `smart_retry` called with a non-positive
`max_retries` returns `None` without ever invoking the operation and
without raising: zero invocations, no sleeps, outcome `None`. -/
theorem smart_retry_py_nonpositive (E A : Type) (op : Nat → Except E A)
    (b : ℚ) (r : Int) (hr : r ≤ 0) :
    smart_retry_py op b r = ⟨0, [], .returnedNone⟩ := by
  rw [smart_retry_py, Int.toNat_of_nonpos hr]
  rfl

/-- Witness for C10 at `max_retries = -3` (and an always-failing op). -/
theorem smart_retry_py_nonpositive_witness :
    (-3 : Int) ≤ 0 ∧
    smart_retry_py (fun _ => (Except.error 0 : Except Nat Nat)) 2 (-3) =
      ⟨0, [], .returnedNone⟩ :=
  ⟨by decide,
    smart_retry_py_nonpositive Nat Nat (fun _ => Except.error 0) 2 (-3) (by decide)⟩

/-- C5: for every system state, `apply_optimizations` with `dry_run=True`
returns True, lists the full command set, never invokes the
command-execution facility, and performs no privilege check. -/
theorem apply_optimizations_dry_run (env : TunerEnv) :
    (apply_optimizations env true).1 = true ∧
    (apply_optimizations env true).2 =
      (get_network_optimization_commands env).map TunerEffect.list_cmd ∧
    TunerEffect.priv_check ∉ (apply_optimizations env true).2 ∧
    ∀ c, TunerEffect.exec_cmd c ∉ (apply_optimizations env true).2 := by
  have h : apply_optimizations env true =
      (true, (get_network_optimization_commands env).map TunerEffect.list_cmd) := by
    simp [apply_optimizations]
  refine ⟨by rw [h], by rw [h], ?_, ?_⟩
  · rw [h]; simp [List.mem_map]
  · intro c; rw [h]; simp [List.mem_map]

/-- C6: for every system state without privilege, `apply_optimizations`
with `dry_run=False` performs only the privilege check — zero commands
executed — and returns False. -/
theorem apply_optimizations_priv_denied (env : TunerEnv)
    (h : env.is_root = false) :
    apply_optimizations env false = (false, [TunerEffect.priv_check]) ∧
    ∀ c, TunerEffect.exec_cmd c ∉ (apply_optimizations env false).2 := by
  have happ : apply_optimizations env false =
      (false, [TunerEffect.priv_check]) := by
    simp [apply_optimizations, h]
  exact ⟨happ, fun c => by rw [happ]; simp⟩

/-- Witness for C6 on a concrete unprivileged system state. -/
theorem apply_optimizations_priv_denied_witness :
    priv_witness_env.is_root = false ∧
    (apply_optimizations priv_witness_env false =
        (false, [TunerEffect.priv_check]) ∧
      ∀ c, TunerEffect.exec_cmd c ∉ (apply_optimizations priv_witness_env false).2) :=
  ⟨rfl, apply_optimizations_priv_denied priv_witness_env rfl⟩

/-- C7: for every failure of the underlying HTTP measurement,
`detect_bandwidth` returns the fixed fallback 10.0 Mbps instead of
propagating the failure. -/
theorem detect_bandwidth_fallback (E : Type) (e : E) :
    detect_bandwidth E (Except.error e) = 10 := rfl

/-- C8: every `dns_lookup_test` call, on the success path and on every
error path, leaves the process-wide default socket timeout equal to its
value before the call. -/
theorem dns_lookup_test_restores_timeout (E : Type) (st0 : Option ℚ)
    (t : ℚ) (lookup : Except E ℚ) :
    run_set_timeouts st0 (dns_lookup_test E st0 t lookup).1 = st0 := by
  cases lookup <;> rfl

/-- Counterexample to C9 as stated: with privilege denied and
`dry_run=False`, the CLI tune action still completes normally — it exits
with code 0 and even proceeds to the persistent-config attempt — so
privilege failure is not a hard stop of the tune action. -/
theorem cli_tune_priv_denied_normal_exit :
    tune_noroot_env.is_root = false ∧
    (cli_tune tune_noroot_env false).exit_code = 0 ∧
    (cli_tune tune_noroot_env false).effects =
      [TunerEffect.priv_check, TunerEffect.write_config sysctl_config_path] := by
  refine ⟨rfl, rfl, ?_⟩
  decide

/-- C9 (amended): the CLI tune action exits with code 0 on every path —
dry-run listing, apply attempt, and privilege-denied non-dry-run alike;
privilege denial halts command execution inside `apply_optimizations`
(zero tuning commands run and it returns False), but the CLI ignores
that result, still attempts the persistent config, and exits 0. -/
theorem cli_tune_exit_code_spec (env : TunerEnv) (dry_run : Bool) :
    (cli_tune env dry_run).exit_code = 0 ∧
    (dry_run = false → env.is_root = false →
      (cli_tune env dry_run).apply_result = false ∧
      ∀ c, TunerEffect.exec_cmd c ∉ (cli_tune env dry_run).effects) := by
  constructor
  · cases dry_run <;> rfl
  · rintro rfl hroot
    have happ : apply_optimizations env false =
        (false, [TunerEffect.priv_check]) := by
      simp [apply_optimizations, hroot]
    constructor
    · simp [cli_tune, happ]
    · intro c
      by_cases hos : env.os_type = "linux" <;>
        simp [cli_tune, happ, create_persistent_config, hos]

/-- Witness for C9 (amended) on the concrete unprivileged Linux state. -/
theorem cli_tune_exit_code_spec_witness :
    (cli_tune tune_noroot_env false).exit_code = 0 ∧
    (cli_tune tune_noroot_env false).apply_result = false ∧
    ∀ c, TunerEffect.exec_cmd c ∉ (cli_tune tune_noroot_env false).effects :=
  ⟨(cli_tune_exit_code_spec tune_noroot_env false).1,
    ((cli_tune_exit_code_spec tune_noroot_env false).2 rfl rfl).1,
    ((cli_tune_exit_code_spec tune_noroot_env false).2 rfl rfl).2⟩
